import Mathlib

/-!
# GridCap API (`app.py`) — shallow embedding and verification

This file embeds the squad/lineup endpoints, the gameweek bootstrap helper and
the roster-catalog sync of the GridCap FastAPI backend (`src/app.py`) as pure
Lean functions over an explicit database state, and proves or refutes the
specification's claims about them.

Conventions of the embedding:
* SQL tables become Lean lists of row structures; the autoincrement primary key
  of `players` is modelled by `nextId` (max existing id + 1).
* Timestamps are naturals (seconds); `datetime.utcnow()` becomes an explicit
  `now` parameter threaded into each operation.
* Monetary amounts (`price_m`, a float in millions) are embedded as naturals
  counting *tenths* of a million: every price the code can produce is a whole
  number of tenths (base prices 8.0/7.5/7.5/6.0/5.0/5.0/6.0 plus bonuses 2.0
  and 0.7, clamped to [4.0, 13.0] and rounded to one decimal), so the tenths
  embedding is exact and `round(x, 1)` is the identity on it.
* `raise HTTPException(status, detail)` becomes returning `ApiResult.err
  status detail` together with the state at the moment of the raise;
  `db.commit()` at the end of a handler corresponds to returning the final
  state with `ApiResult.ok`.
-/

namespace GridCap

/-- Row of the `players` table: autoincrement `id`, Sleeper `external_id`,
`name`, `team`, position string (`QB`/`RB`/`WR`/`TE`/`K`/`DST`) and `price_m`
in tenths of a million. -/
structure Player where
  id : Nat
  external_id : String
  name : String
  team : String
  pos : String
  price_m : Nat
deriving DecidableEq

/-- Row of the `gameweeks` table. -/
structure Gameweek where
  id : Nat
  name : String
  deadline_at : Nat
deriving DecidableEq

/-- Row of the `squad_picks` table. -/
structure SquadPick where
  user_id : Nat
  gameweek : Nat
  player_id : Nat
deriving DecidableEq

/-- Row of the `lineups` table; `starters_json` (a JSON list of player ids)
is embedded directly as the list it encodes. -/
structure Lineup where
  user_id : Nat
  gameweek : Nat
  starters : List Nat
  captain_id : Nat
  vice_captain_id : Nat
  chip : Option String
deriving DecidableEq

/-- Row of the `entries` table. -/
structure Entry where
  id : Nat
  league_id : Nat
  user_id : Nat
  team_name : String
  points : Int
deriving DecidableEq

/-- The persistent state touched by the squad/lineup endpoints and the
player sync. -/
structure DB where
  players : List Player
  gameweeks : List Gameweek
  squadPicks : List SquadPick
  lineups : List Lineup
  entries : List Entry
deriving DecidableEq

/-- Outcome of a handler: normal return, or `HTTPException(status, detail)`. -/
inductive ApiResult where
  | ok
  | err (status : Nat) (detail : String)
deriving DecidableEq

/-- `timedelta(days=7)` in seconds. -/
def sevenDays : Nat := 7 * 24 * 60 * 60

/-- `ensure_gameweek`: look up the gameweek row by id; if absent, insert and
commit a row named `GW{id}` with a deadline seven days from now. -/
def ensure_gameweek (now : Nat) (db : DB) (gwId : Nat) : DB :=
  if db.gameweeks.any (fun g => g.id = gwId) then db
  else { db with gameweeks := db.gameweeks ++ [⟨gwId, "GW" ++ toString gwId, now + sevenDays⟩] }

/-- `POST /squad/set` (`set_squad`). The authenticated user id is a parameter
(the `get_user_id` helper is outside the engine). Mirrors the handler body:
ensure the gameweek row, require exactly 15 ids, require that 15 player rows
match `id IN player_ids`, then delete the previous picks for
`(user, gameweek)` and insert the new ones. -/
def set_squad (now : Nat) (db : DB) (user_id gameweek : Nat) (player_ids : List Nat) :
    DB × ApiResult :=
  let db1 := ensure_gameweek now db gameweek
  if player_ids.length ≠ 15 then
    (db1, .err 400 "You must submit exactly 15 player_ids.")
  else if (db1.players.filter (fun p => p.id ∈ player_ids)).length ≠ 15 then
    (db1, .err 400 "One or more player_ids not found.")
  else
    ({ db1 with squadPicks := (db1.squadPicks.filter
          (fun sp => ¬ (sp.user_id = user_id ∧ sp.gameweek = gameweek))
          ++ player_ids.map (fun pid => ⟨user_id, gameweek, pid⟩)) },
     .ok)

/-- `POST /lineup/set` (`set_lineup`). Mirrors the handler body: ensure the
gameweek row, require 9 starters, distinct captain/vice both among starters,
a stored 15-pick squad for `(user, gameweek)`, starters drawn from that squad,
then upsert the lineup row. -/
def set_lineup (now : Nat) (db : DB) (user_id gameweek : Nat) (starters : List Nat)
    (captain_id vice_captain_id : Nat) (chip : Option String) : DB × ApiResult :=
  let db1 := ensure_gameweek now db gameweek
  if starters.length ≠ 9 then
    (db1, .err 400 "Starters must be exactly 9 players.")
  else if captain_id = vice_captain_id then
    (db1, .err 400 "Captain and vice must be different.")
  else if captain_id ∉ starters ∨ vice_captain_id ∉ starters then
    (db1, .err 400 "Captain and vice must be among starters.")
  else
    let squad_ids := (db1.squadPicks.filter
        (fun sp => sp.user_id = user_id ∧ sp.gameweek = gameweek)).map SquadPick.player_id
    if squad_ids.length ≠ 15 then
      (db1, .err 400 "Set your 15-man squad first.")
    else if ¬ (∀ s ∈ starters, s ∈ squad_ids) then
      (db1, .err 400 "Starters must be chosen from your squad.")
    else
      let newLineup : Lineup := ⟨user_id, gameweek, starters, captain_id, vice_captain_id, chip⟩
      if db1.lineups.any (fun l => l.user_id = user_id ∧ l.gameweek = gameweek) then
        ({ db1 with lineups := (db1.lineups.map
            (fun l => if l.user_id = user_id ∧ l.gameweek = gameweek then newLineup else l)) },
         .ok)
      else
        ({ db1 with lineups := db1.lineups ++ [newLineup] }, .ok)

/-! ## Roster-catalog sync (`/players/sync`) -/

/-- `VALID_POS`: the feed positions the sync keeps (Sleeper uses `DEF`). -/
def VALID_POS : List String := ["QB", "RB", "WR", "TE", "K", "DEF"]

/-- One record of the Sleeper feed (`payload.items()`), with the fields the
sync reads. `sid` is the JSON-object key (already a string). -/
structure FeedRec where
  sid : String
  active : Bool
  feedPos : Option String
  full_name : Option String
  first_name : Option String
  last_name : Option String
  team : Option String
  depth_chart_order : Option Int
  years_exp : Option Int
deriving DecidableEq

/-- `price_for_player`, in tenths of a million: base by position (default 6.0),
+2.0 if `depth_chart_order == 1`, +0.7 if `(years_exp or 0) >= 5`, then
`round(max(4.0, min(price, 13.0)), 1)` — the rounding is the identity in the
tenths embedding. -/
def price_for_player (feedPos : Option String) (depth_chart_order : Option Int)
    (years_exp : Option Int) : Nat :=
  let base : Nat :=
    match feedPos with
    | some "QB" => 80
    | some "RB" => 75
    | some "WR" => 75
    | some "TE" => 60
    | some "K" => 50
    | some "DEF" => 50
    | _ => 60
  let p1 := if depth_chart_order = some 1 then base + 20 else base
  let p2 := if 5 ≤ years_exp.getD 0 then p1 + 7 else p1
  max 40 (min p2 130)

/-- A record is processed by the sync loop iff it is active and its position is
one of `VALID_POS` (inactive or other-position records are skipped). -/
def validRec (r : FeedRec) : Bool :=
  r.active && (match r.feedPos with
    | some pos => VALID_POS.contains pos
    | none => false)

/-- The name the sync stores: `(full_name or "{first} {last}").strip()` where
falsy (`None` or empty) `full_name` falls back to the stripped parts. -/
def recName (r : FeedRec) : String :=
  let fallback := (r.first_name.getD "").trim ++ " " ++ (r.last_name.getD "").trim
  (match r.full_name with
   | some s => if s = "" then fallback else s
   | none => fallback).trim

/-- The team the sync stores: `(team or "").upper()`. -/
def recTeam (r : FeedRec) : String := (r.team.getD "").toUpper

/-- The stored position: `"DST" if pos == "DEF" else pos`. -/
def posApp (pos : String) : String := if pos = "DEF" then "DST" else pos

/-- The stored position of a feed record (only used on valid records, whose
`feedPos` is present). -/
def recPos (r : FeedRec) : String := posApp (r.feedPos.getD "")

/-- The stored price of a feed record. -/
def recPrice (r : FeedRec) : Nat :=
  price_for_player r.feedPos r.depth_chart_order r.years_exp

/-- Update of an existing player row found by `external_id`: the sync assigns
`name`, `team`, `pos` and `price_m`, leaving `id` and `external_id` alone. -/
def updRow (r : FeedRec) (row : Player) : Player :=
  { row with name := recName r, team := recTeam r, pos := recPos r, price_m := recPrice r }

/-- Autoincrement primary key for an insert. -/
def nextId (cat : List Player) : Nat := cat.foldr (fun p m => max p.id m) 0 + 1

/-- Freshly inserted player row for a feed record. -/
def newRow (cat : List Player) (r : FeedRec) : Player :=
  ⟨nextId cat, r.sid, recName r, recTeam r, recPos r, recPrice r⟩

/-- One iteration of the sync loop: skip invalid records; otherwise update the
row matched by `external_id` if one exists, else insert a new row. -/
def syncOne (cat : List Player) (r : FeedRec) : List Player :=
  if validRec r then
    if cat.any (fun row => row.external_id = r.sid) then
      cat.map (fun row => if row.external_id = r.sid then updRow r row else row)
    else cat ++ [newRow cat r]
  else cat

/-- `sync_players` restricted to its effect on the `players` table: fold the
feed through `syncOne`. -/
def sync_players (cat : List Player) (feed : List FeedRec) : List Player :=
  feed.foldl syncOne cat

/-! ## Spec-side observation functions and spec-modelled components

The definitions below follow the *specification's* words, to be compared with
the code-derived definitions above. -/

/-- Per-position count of the selected players, as the spec's position-quota
invariant reads it. -/
def posCount (db : DB) (ids : List Nat) (pos : String) : Nat :=
  (db.players.filter (fun p => p.id ∈ ids ∧ p.pos = pos)).length

/-- Total price (in tenths) of the selected players. -/
def totalPrice (db : DB) (ids : List Nat) : Nat :=
  ((db.players.filter (fun p => p.id ∈ ids)).map Player.price_m).sum

/-- The spec's initial budget, 100.0 units, in tenths. -/
def initialBudget : Nat := 1000

/-- The formation predicate exactly as the specification words it: fixed slots
{QB:1, RB:2, WR:2, TE:1, K:1, DST:1} plus exactly one FLEX slot filled by an
RB/WR/TE not already consuming its fixed slot. A valid assignment of the nine
starters to those slots exists iff the position counts are QB=1, K=1, DST=1,
2 ≤ RB ≤ 3, 2 ≤ WR ≤ 3, 1 ≤ TE ≤ 2 and RB+WR+TE = 6. -/
def spec_formation_ok (db : DB) (starters : List Nat) : Prop :=
  posCount db starters "QB" = 1 ∧ posCount db starters "K" = 1 ∧
  posCount db starters "DST" = 1 ∧
  2 ≤ posCount db starters "RB" ∧ posCount db starters "RB" ≤ 3 ∧
  2 ≤ posCount db starters "WR" ∧ posCount db starters "WR" ≤ 3 ∧
  1 ≤ posCount db starters "TE" ∧ posCount db starters "TE" ≤ 2 ∧
  posCount db starters "RB" + posCount db starters "WR" + posCount db starters "TE" = 6

instance (db : DB) (starters : List Nat) : Decidable (spec_formation_ok db starters) := by
  unfold spec_formation_ok
  infer_instance

/-- The pricing formula exactly as the specification words it (in tenths):
base-by-position, +2.0 if `depth_chart_order == 1`, +0.7 if years of
experience ≥ 5, clamped to the interval [4.0, 13.0] (rounding to one decimal
is the identity in tenths). -/
def spec_price (feedPos : Option String) (depth : Option Int) (years : Option Int) : Nat :=
  let base : Nat :=
    match feedPos with
    | some "QB" => 80
    | some "RB" => 75
    | some "WR" => 75
    | some "TE" => 60
    | some "K" => 50
    | some "DEF" => 50
    | _ => 60
  min (max (base + (if depth = some 1 then 20 else 0) + (if 5 ≤ years.getD 0 then 7 else 0)) 40) 130

/-- Modelled from the spec: the repository's source contains no Transfer
Ledger (spec §4.2, §9 notes scoring/transfer costs are not implemented in the
source). Per the spec, for a squad delta of size `k` and `free` banked free
transfers, the ledger consumes `min k free` transfers at no cost and charges
4 points per transfer beyond that, and an active wildcard sets the cost to
zero regardless of `k`. -/
def transfer_cost (k free : Nat) (wildcardActive : Bool) : Nat :=
  if wildcardActive then 0 else 4 * (k - min k free)

/-- Modelled from the spec: free transfers accumulate at 1 per period up to a
configured cap. -/
def accrue_free_transfers (free cap : Nat) : Nat := min (free + 1) cap

/-! ## Concrete states used as counterexample inputs -/

/-- A catalog of 15 quarterbacks, each priced 13.0 (130 tenths). -/
def exPlayersQB : List Player :=
  (List.range 15).map (fun i => ⟨i + 1, toString (i + 1), "Player", "NE", "QB", 130⟩)

/-- The ids 1..15. -/
def exIds15 : List Nat := (List.range 15).map (· + 1)

/-- Catalog of 15 QBs, nothing else stored. -/
def exDB1 : DB := ⟨exPlayersQB, [], [], [], []⟩

/-- Catalog of 15 QBs and a gameweek whose deadline (time 0) has passed. -/
def exDB2 : DB := ⟨exPlayersQB, [⟨1, "GW1", 0⟩], [], [], []⟩

/-- Catalog of 15 QBs, gameweek 1, and the full squad 1..15 stored for
user 1 / gameweek 1. -/
def exDB3 : DB := ⟨exPlayersQB, [⟨1, "GW1", 0⟩], exIds15.map (fun pid => ⟨1, 1, pid⟩), [], []⟩

/-- The ids of the squad stored for a `(user, gameweek)` pair. -/
def squadIdsOf (db : DB) (u gw : Nat) : List Nat :=
  (db.squadPicks.filter (fun sp => sp.user_id = u ∧ sp.gameweek = gw)).map SquadPick.player_id

/-- A catalog reflects a feed record when it holds a row keyed by the record's
external id and every row with that key already carries the record's synced
fields (so a further update of it is a no-op). -/
def synced (cat : List Player) (r : FeedRec) : Prop :=
  (∃ row ∈ cat, row.external_id = r.sid) ∧
    ∀ row ∈ cat, row.external_id = r.sid → updRow r row = row

/-- A concrete feed record: an active first-string defense with six years of
experience (price 5.0 + 2.0 + 0.7 = 7.7, position `DEF` to be stored as `DST`). -/
def exRec : FeedRec :=
  ⟨"42", true, some "DEF", some "Steel Curtain", none, none, some "pit", some 1, some 6⟩

/-! ## Projection lemmas for the operations -/

theorem ensure_gameweek_players (now : Nat) (db : DB) (g : Nat) :
    (ensure_gameweek now db g).players = db.players := by
  unfold ensure_gameweek
  split <;> rfl

theorem ensure_gameweek_squadPicks (now : Nat) (db : DB) (g : Nat) :
    (ensure_gameweek now db g).squadPicks = db.squadPicks := by
  unfold ensure_gameweek
  split <;> rfl

theorem ensure_gameweek_lineups (now : Nat) (db : DB) (g : Nat) :
    (ensure_gameweek now db g).lineups = db.lineups := by
  unfold ensure_gameweek
  split <;> rfl

theorem ensure_gameweek_entries (now : Nat) (db : DB) (g : Nat) :
    (ensure_gameweek now db g).entries = db.entries := by
  unfold ensure_gameweek
  split <;> rfl

theorem set_squad_snd (now : Nat) (db : DB) (u gw : Nat) (ids : List Nat) :
    (set_squad now db u gw ids).2 =
      if ids.length ≠ 15 then .err 400 "You must submit exactly 15 player_ids."
      else if (db.players.filter (fun p => p.id ∈ ids)).length ≠ 15 then
        .err 400 "One or more player_ids not found."
      else .ok := by
  simp only [set_squad, ensure_gameweek_players]
  split_ifs <;> rfl

theorem set_squad_gameweeks (now : Nat) (db : DB) (u gw : Nat) (ids : List Nat) :
    (set_squad now db u gw ids).1.gameweeks = (ensure_gameweek now db gw).gameweeks := by
  simp only [set_squad]
  split_ifs <;> rfl

theorem set_squad_players (now : Nat) (db : DB) (u gw : Nat) (ids : List Nat) :
    (set_squad now db u gw ids).1.players = db.players := by
  simp only [set_squad]
  split_ifs <;> simp [ensure_gameweek_players]

theorem set_squad_lineups (now : Nat) (db : DB) (u gw : Nat) (ids : List Nat) :
    (set_squad now db u gw ids).1.lineups = db.lineups := by
  simp only [set_squad]
  split_ifs <;> simp [ensure_gameweek_lineups]

theorem set_squad_entries (now : Nat) (db : DB) (u gw : Nat) (ids : List Nat) :
    (set_squad now db u gw ids).1.entries = db.entries := by
  simp only [set_squad]
  split_ifs <;> simp [ensure_gameweek_entries]

theorem set_squad_squadPicks_of_err (now : Nat) (db : DB) (u gw : Nat) (ids : List Nat)
    (h : (set_squad now db u gw ids).2 ≠ .ok) :
    (set_squad now db u gw ids).1.squadPicks = db.squadPicks := by
  simp only [set_squad] at h ⊢
  split_ifs at h ⊢
  · exact ensure_gameweek_squadPicks now db gw
  · exact ensure_gameweek_squadPicks now db gw
  · exact absurd rfl h

theorem set_squad_squadPicks_of_ok (now : Nat) (db : DB) (u gw : Nat) (ids : List Nat)
    (h : (set_squad now db u gw ids).2 = .ok) :
    (set_squad now db u gw ids).1.squadPicks =
      db.squadPicks.filter (fun sp => ¬ (sp.user_id = u ∧ sp.gameweek = gw))
        ++ ids.map (fun pid => ⟨u, gw, pid⟩) := by
  simp only [set_squad] at h ⊢
  split_ifs at h ⊢
  simp [ensure_gameweek_squadPicks]

theorem set_lineup_snd (now : Nat) (db : DB) (u gw : Nat) (starters : List Nat)
    (c v : Nat) (chip : Option String) :
    (set_lineup now db u gw starters c v chip).2 =
      if starters.length ≠ 9 then .err 400 "Starters must be exactly 9 players."
      else if c = v then .err 400 "Captain and vice must be different."
      else if c ∉ starters ∨ v ∉ starters then
        .err 400 "Captain and vice must be among starters."
      else if (squadIdsOf db u gw).length ≠ 15 then
        .err 400 "Set your 15-man squad first."
      else if ¬ (∀ s ∈ starters, s ∈ squadIdsOf db u gw) then
        .err 400 "Starters must be chosen from your squad."
      else .ok := by
  simp only [set_lineup, squadIdsOf, ensure_gameweek_squadPicks]
  split_ifs <;> rfl

theorem set_lineup_gameweeks (now : Nat) (db : DB) (u gw : Nat) (starters : List Nat)
    (c v : Nat) (chip : Option String) :
    (set_lineup now db u gw starters c v chip).1.gameweeks =
      (ensure_gameweek now db gw).gameweeks := by
  simp only [set_lineup]
  split_ifs <;> rfl

theorem set_lineup_players (now : Nat) (db : DB) (u gw : Nat) (starters : List Nat)
    (c v : Nat) (chip : Option String) :
    (set_lineup now db u gw starters c v chip).1.players = db.players := by
  simp only [set_lineup]
  split_ifs <;> simp [ensure_gameweek_players]

theorem set_lineup_squadPicks (now : Nat) (db : DB) (u gw : Nat) (starters : List Nat)
    (c v : Nat) (chip : Option String) :
    (set_lineup now db u gw starters c v chip).1.squadPicks = db.squadPicks := by
  simp only [set_lineup]
  split_ifs <;> simp [ensure_gameweek_squadPicks]

theorem set_lineup_entries (now : Nat) (db : DB) (u gw : Nat) (starters : List Nat)
    (c v : Nat) (chip : Option String) :
    (set_lineup now db u gw starters c v chip).1.entries = db.entries := by
  simp only [set_lineup]
  split_ifs <;> simp [ensure_gameweek_entries]

theorem set_lineup_lineups_of_err (now : Nat) (db : DB) (u gw : Nat) (starters : List Nat)
    (c v : Nat) (chip : Option String)
    (h : (set_lineup now db u gw starters c v chip).2 ≠ .ok) :
    (set_lineup now db u gw starters c v chip).1.lineups = db.lineups := by
  simp only [set_lineup] at h ⊢
  split_ifs at h ⊢ <;>
    first
      | exact ensure_gameweek_lineups now db gw
      | exact absurd rfl h

/-! ## Counting the catalog rows matched by a submission -/

theorem length_filter_map_id (l : List Player) (q : Nat → Bool) :
    ((l.map Player.id).filter q).length = (l.filter (fun p => q p.id)).length := by
  induction l with
  | nil => rfl
  | cons a t ih =>
      simp only [List.map_cons, List.filter_cons]
      cases hq : q a.id <;> simp [hq, ih]

theorem nodup_of_toFinset_card_eq_length {l : List Nat}
    (h : l.toFinset.card = l.length) : l.Nodup := by
  rw [List.card_toFinset] at h
  exact List.dedup_eq_self.mp ((List.dedup_sublist l).eq_of_length h)

/-- The handler's existence check `db.query(Player).filter(Player.id.in_(ids)).count()`
counts catalog rows, so (with unique primary keys) it reaches 15 exactly when the
15 submitted ids are pairwise distinct and all present in the catalog. -/
theorem matched_count_eq_iff (players : List Player) (ids : List Nat)
    (hnd : (players.map Player.id).Nodup) (hlen : ids.length = 15) :
    (players.filter (fun p => p.id ∈ ids)).length = 15 ↔
      ids.Nodup ∧ ∀ i ∈ ids, i ∈ players.map Player.id := by
  have key : ((players.map Player.id).filter (fun i => i ∈ ids)).length =
      (players.filter (fun p => p.id ∈ ids)).length := length_filter_map_id players _
  have hfn : ((players.map Player.id).filter (fun i => i ∈ ids)).Nodup := hnd.filter _
  have hcard : ((players.map Player.id).filter (fun i => i ∈ ids)).toFinset.card =
      ((players.map Player.id).filter (fun i => i ∈ ids)).length :=
    List.toFinset_card_of_nodup hfn
  have hsub : ((players.map Player.id).filter (fun i => i ∈ ids)).toFinset ⊆ ids.toFinset := by
    intro x hx
    rw [List.mem_toFinset] at hx ⊢
    exact of_decide_eq_true (List.mem_filter.mp hx).2
  constructor
  · intro h15
    have hfl : ((players.map Player.id).filter (fun i => i ∈ ids)).length = 15 := by
      rw [key, h15]
    have hle : 15 ≤ ids.toFinset.card := by
      calc 15 = ((players.map Player.id).filter (fun i => i ∈ ids)).toFinset.card := by
            rw [hcard, hfl]
        _ ≤ ids.toFinset.card := Finset.card_le_card hsub
    have hge : ids.toFinset.card ≤ 15 := by
      rw [← hlen]
      exact List.toFinset_card_le ids
    have hnodup : ids.Nodup := nodup_of_toFinset_card_eq_length (by omega)
    have hEq : ((players.map Player.id).filter (fun i => i ∈ ids)).toFinset = ids.toFinset :=
      Finset.eq_of_subset_of_card_le hsub (by omega)
    refine ⟨hnodup, fun i hi => ?_⟩
    have hmem : i ∈ ids.toFinset := List.mem_toFinset.mpr hi
    rw [← hEq, List.mem_toFinset, List.mem_filter] at hmem
    exact hmem.1
  · rintro ⟨hnodup, hsubids⟩
    have hEq : ((players.map Player.id).filter (fun i => i ∈ ids)).toFinset = ids.toFinset := by
      apply Finset.Subset.antisymm hsub
      intro x hx
      rw [List.mem_toFinset] at hx
      rw [List.mem_toFinset, List.mem_filter]
      exact ⟨hsubids x hx, decide_eq_true hx⟩
    have hlf : ((players.map Player.id).filter (fun i => i ∈ ids)).length = ids.length := by
      rw [← hcard, hEq, List.toFinset_card_of_nodup hnodup]
    rw [← key, hlf, hlen]

theorem filter_not_filter_eq_nil {α : Type} (l : List α) (P : α → Prop) [DecidablePred P] :
    (l.filter (fun a => ¬ P a)).filter (fun a => P a) = [] := by
  induction l with
  | nil => rfl
  | cons a t ih => by_cases h : P a <;> simp [List.filter_cons, h, ih]

theorem filter_map_mk_eq (u gw : Nat) (ids : List Nat) :
    ((ids.map (fun pid => (⟨u, gw, pid⟩ : SquadPick))).filter
      (fun sp => sp.user_id = u ∧ sp.gameweek = gw)).map SquadPick.player_id = ids := by
  induction ids with
  | nil => rfl
  | cons a t ih =>
      rw [List.map_cons, List.filter_cons, if_pos (by simp), List.map_cons, ih]

/-! ## Claim theorems -/

/-- Claim C1, counterexample: the squad-set operation accepts a squad of fifteen
quarterbacks (position count 15 where the spec caps QB at 2) whose total price,
195.0, exceeds the spec's initial budget of 100.0 — so acceptance implies neither
the position caps nor the budget bound. -/
theorem set_squad_accepts_quota_and_budget_violation :
    (set_squad 0 exDB1 1 1 exIds15).2 = .ok ∧
      posCount exDB1 exIds15 "QB" = 15 ∧ ¬ posCount exDB1 exIds15 "QB" ≤ 2 ∧
      totalPrice exDB1 exIds15 = 1950 ∧ ¬ totalPrice exDB1 exIds15 ≤ initialBudget := by
  decide

/-- Claim C1 (amended): the squad-set operation checks neither position quotas nor
any budget; it accepts a submission exactly when it lists 15 pairwise-distinct ids
of existing catalog players, regardless of the players' positions and prices. -/
theorem set_squad_accepts_iff_fifteen_distinct_existing (now : Nat) (db : DB) (u gw : Nat)
    (ids : List Nat) (hpk : (db.players.map Player.id).Nodup) :
    (set_squad now db u gw ids).2 = .ok ↔
      ids.length = 15 ∧ ids.Nodup ∧ ∀ i ∈ ids, i ∈ db.players.map Player.id := by
  rw [set_squad_snd]
  constructor
  · intro hok
    split_ifs at hok with h1 h2
    have hlen := not_ne_iff.mp h1
    obtain ⟨hnd, hex⟩ := (matched_count_eq_iff db.players ids hpk hlen).mp (not_ne_iff.mp h2)
    exact ⟨hlen, hnd, hex⟩
  · rintro ⟨hlen, hnd, hex⟩
    rw [if_neg (not_ne_iff.mpr hlen),
      if_neg (not_ne_iff.mpr ((matched_count_eq_iff db.players ids hpk hlen).mpr ⟨hnd, hex⟩))]

/-- Witness for the amended C1 theorem at a concrete state. -/
theorem set_squad_accepts_iff_witness :
    (exDB1.players.map Player.id).Nodup ∧
      ((set_squad 0 exDB1 1 1 exIds15).2 = .ok ↔
        exIds15.length = 15 ∧ exIds15.Nodup ∧ ∀ i ∈ exIds15, i ∈ exDB1.players.map Player.id) :=
  ⟨by decide, set_squad_accepts_iff_fifteen_distinct_existing 0 exDB1 1 1 exIds15 (by decide)⟩

/-- Claim C2, counterexample: gameweek 1's stored deadline (time 0) has passed at
submission time 1000 and no wildcard chip exists anywhere in the state, yet the
squad submission is accepted. -/
theorem set_squad_accepts_after_deadline :
    exDB2.gameweeks = [⟨1, "GW1", 0⟩] ∧ (0 : Nat) < 1000 ∧
      (set_squad 1000 exDB2 1 1 exIds15).2 = .ok := by
  decide

/-- Claim C2 (amended): the squad-set operation never consults the clock, the target
period's deadline, or chip state — its accept/reject outcome is the same at every
submission time and for every stored gameweeks table, so post-deadline submissions
are processed exactly like timely ones. -/
theorem set_squad_result_ignores_deadlines (now now' : Nat) (db : DB) (gws : List Gameweek)
    (u gw : Nat) (ids : List Nat) :
    (set_squad now db u gw ids).2 =
      (set_squad now' { db with gameweeks := gws } u gw ids).2 := by
  rw [set_squad_snd, set_squad_snd]

/-- Claim C3, counterexample: a lineup of nine quarterbacks — QB count 9 against the
formation's single QB slot, and no RB/WR/TE/K/DST at all — is accepted. -/
theorem set_lineup_accepts_formation_violation :
    (set_lineup 1000 exDB3 1 1 [1, 2, 3, 4, 5, 6, 7, 8, 9] 1 2 none).2 = .ok ∧
      ¬ spec_formation_ok exDB3 [1, 2, 3, 4, 5, 6, 7, 8, 9] := by
  decide

/-- Claim C3 (amended): the lineup-set operation performs no formation check: it never
reads the players table, so its accept/reject outcome is independent of the starters'
positions. -/
theorem set_lineup_result_ignores_positions (now : Nat) (db : DB) (ps : List Player)
    (u gw : Nat) (starters : List Nat) (c v : Nat) (chip : Option String) :
    (set_lineup now { db with players := ps } u gw starters c v chip).2 =
      (set_lineup now db u gw starters c v chip).2 := by
  rw [set_lineup_snd, set_lineup_snd]
  rfl

/-- Claim C4, counterexample: a squad submission that fails validation (1 id instead
of 15) still mutates stored state: it creates and commits a gameweek row. -/
theorem rejected_submission_mutates_gameweeks :
    (set_squad 0 exDB1 1 7 [1]).2 ≠ .ok ∧
      (set_squad 0 exDB1 1 7 [1]).1.gameweeks ≠ exDB1.gameweeks := by
  decide

/-- Claim C4 (amended): a squad or lineup submission that fails validation leaves the
players, squad-picks, lineups and entries tables exactly as they were; only the
gameweeks table can change, by gaining the bootstrap row for the named period, which
is committed before validation runs. -/
theorem rejected_submission_leaves_other_tables (now : Nat) (db : DB) (u gw : Nat)
    (ids starters : List Nat) (c v : Nat) (chip : Option String)
    (hsq : (set_squad now db u gw ids).2 ≠ .ok)
    (hlu : (set_lineup now db u gw starters c v chip).2 ≠ .ok) :
    (set_squad now db u gw ids).1.players = db.players ∧
    (set_squad now db u gw ids).1.squadPicks = db.squadPicks ∧
    (set_squad now db u gw ids).1.lineups = db.lineups ∧
    (set_squad now db u gw ids).1.entries = db.entries ∧
    (set_lineup now db u gw starters c v chip).1.players = db.players ∧
    (set_lineup now db u gw starters c v chip).1.squadPicks = db.squadPicks ∧
    (set_lineup now db u gw starters c v chip).1.lineups = db.lineups ∧
    (set_lineup now db u gw starters c v chip).1.entries = db.entries :=
  ⟨set_squad_players now db u gw ids,
   set_squad_squadPicks_of_err now db u gw ids hsq,
   set_squad_lineups now db u gw ids,
   set_squad_entries now db u gw ids,
   set_lineup_players now db u gw starters c v chip,
   set_lineup_squadPicks now db u gw starters c v chip,
   set_lineup_lineups_of_err now db u gw starters c v chip hlu,
   set_lineup_entries now db u gw starters c v chip⟩

/-- Witness for the amended C4 theorem at a concrete rejected submission. -/
theorem rejected_submission_leaves_other_tables_witness :
    (set_squad 0 exDB1 1 7 [1]).2 ≠ .ok ∧
    (set_lineup 0 exDB1 1 7 [1] 1 2 none).2 ≠ .ok ∧
    ((set_squad 0 exDB1 1 7 [1]).1.players = exDB1.players ∧
     (set_squad 0 exDB1 1 7 [1]).1.squadPicks = exDB1.squadPicks ∧
     (set_squad 0 exDB1 1 7 [1]).1.lineups = exDB1.lineups ∧
     (set_squad 0 exDB1 1 7 [1]).1.entries = exDB1.entries ∧
     (set_lineup 0 exDB1 1 7 [1] 1 2 none).1.players = exDB1.players ∧
     (set_lineup 0 exDB1 1 7 [1] 1 2 none).1.squadPicks = exDB1.squadPicks ∧
     (set_lineup 0 exDB1 1 7 [1] 1 2 none).1.lineups = exDB1.lineups ∧
     (set_lineup 0 exDB1 1 7 [1] 1 2 none).1.entries = exDB1.entries) :=
  ⟨by decide, by decide,
   rejected_submission_leaves_other_tables 0 exDB1 1 7 [1] [1] 1 2 none (by decide) (by decide)⟩

/-- Claim C5: an accepted squad submission lists exactly 15 pairwise-distinct ids of
existing catalog players, and the squad then stored for (user, gameweek) is exactly
that list. -/
theorem set_squad_ok_stores_fifteen_distinct_existing (now : Nat) (db : DB) (u gw : Nat)
    (ids : List Nat) (hpk : (db.players.map Player.id).Nodup)
    (hok : (set_squad now db u gw ids).2 = .ok) :
    ids.length = 15 ∧ ids.Nodup ∧ (∀ i ∈ ids, i ∈ db.players.map Player.id) ∧
      squadIdsOf (set_squad now db u gw ids).1 u gw = ids := by
  have hok2 := hok
  rw [set_squad_snd] at hok2
  split_ifs at hok2 with h1 h2
  have hlen : ids.length = 15 := not_ne_iff.mp h1
  obtain ⟨hnd, hex⟩ := (matched_count_eq_iff db.players ids hpk hlen).mp (not_ne_iff.mp h2)
  refine ⟨hlen, hnd, hex, ?_⟩
  rw [squadIdsOf, set_squad_squadPicks_of_ok now db u gw ids hok, List.filter_append,
    List.map_append, filter_not_filter_eq_nil, filter_map_mk_eq]
  rfl

/-- Witness for the C5 theorem at a concrete accepted submission. -/
theorem set_squad_ok_stores_witness :
    (exDB1.players.map Player.id).Nodup ∧ (set_squad 0 exDB1 1 1 exIds15).2 = .ok ∧
      (exIds15.length = 15 ∧ exIds15.Nodup ∧
        (∀ i ∈ exIds15, i ∈ exDB1.players.map Player.id) ∧
        squadIdsOf (set_squad 0 exDB1 1 1 exIds15).1 1 1 = exIds15) :=
  ⟨by decide, by decide,
   set_squad_ok_stores_fifteen_distinct_existing 0 exDB1 1 1 exIds15 (by decide) (by decide)⟩

/-- Claim C6, counterexample: a starters list with a repeated id (only 8 distinct
players) passes every check — the code tests `len(starters) == 9` and set-based
subset inclusion, not 9 distinct starters — so the accepted starters are not a
9-element subset of the squad. -/
theorem set_lineup_accepts_duplicate_starters :
    (set_lineup 1000 exDB3 1 1 [1, 1, 2, 3, 4, 5, 6, 7, 8] 1 2 none).2 = .ok ∧
      ¬ ([1, 1, 2, 3, 4, 5, 6, 7, 8] : List Nat).Nodup := by
  decide

/-- Claim C6 (amended): the lineup-set operation accepts only if the starters list has
exactly nine entries (repetitions are not ruled out) all drawn from the 15-pick squad
stored for (user, gameweek), with captain and vice-captain distinct members of the
starters; and when no 15-pick squad is stored it rejects without writing a lineup. -/
theorem set_lineup_accept_conditions (now : Nat) (db : DB) (u gw : Nat)
    (starters : List Nat) (c v : Nat) (chip : Option String) :
    ((set_lineup now db u gw starters c v chip).2 = .ok →
      starters.length = 9 ∧ c ≠ v ∧ c ∈ starters ∧ v ∈ starters ∧
      (∀ s ∈ starters, s ∈ squadIdsOf db u gw) ∧ (squadIdsOf db u gw).length = 15) ∧
    ((squadIdsOf db u gw).length ≠ 15 →
      (set_lineup now db u gw starters c v chip).2 ≠ .ok ∧
      (set_lineup now db u gw starters c v chip).1.lineups = db.lineups) := by
  constructor
  · intro hok
    rw [set_lineup_snd] at hok
    split_ifs at hok with h1 h2 h3 h4 h5
    exact ⟨not_ne_iff.mp h1, h2, not_not.mp (not_or.mp h3).1, not_not.mp (not_or.mp h3).2,
      h5, not_ne_iff.mp h4⟩
  · intro hno
    have hres : (set_lineup now db u gw starters c v chip).2 ≠ .ok := by
      intro heq
      rw [set_lineup_snd] at heq
      split_ifs at heq
    exact ⟨hres, set_lineup_lineups_of_err now db u gw starters c v chip hres⟩

/-- Witness for the amended C6 theorem: the accepted-branch consequences at a concrete
accepted lineup, and the rejection branch at a state with no stored squad. -/
theorem set_lineup_accept_conditions_witness :
    ((set_lineup 1000 exDB3 1 1 [1, 2, 3, 4, 5, 6, 7, 8, 9] 1 2 none).2 = .ok ∧
      ([1, 2, 3, 4, 5, 6, 7, 8, 9] : List Nat).length = 9 ∧ (1 : Nat) ≠ 2 ∧
      (1 : Nat) ∈ [1, 2, 3, 4, 5, 6, 7, 8, 9] ∧ (2 : Nat) ∈ [1, 2, 3, 4, 5, 6, 7, 8, 9] ∧
      (∀ s ∈ [1, 2, 3, 4, 5, 6, 7, 8, 9], s ∈ squadIdsOf exDB3 1 1) ∧
      (squadIdsOf exDB3 1 1).length = 15) ∧
    ((squadIdsOf exDB1 1 1).length ≠ 15 ∧
      (set_lineup 0 exDB1 1 1 [1, 2, 3, 4, 5, 6, 7, 8, 9] 1 2 none).2 ≠ .ok ∧
      (set_lineup 0 exDB1 1 1 [1, 2, 3, 4, 5, 6, 7, 8, 9] 1 2 none).1.lineups = exDB1.lineups) :=
  ⟨⟨by decide,
    (set_lineup_accept_conditions 1000 exDB3 1 1 [1, 2, 3, 4, 5, 6, 7, 8, 9] 1 2 none).1
      (by decide)⟩,
   ⟨by decide,
    (set_lineup_accept_conditions 0 exDB1 1 1 [1, 2, 3, 4, 5, 6, 7, 8, 9] 1 2 none).2
      (by decide)⟩⟩

/-- Claim C10: when no gameweek row with the submitted id exists, both the squad-set
and the lineup-set operation create and commit a row `GW{id}` with deadline seven days
after the current time, and that row is in the final state whatever the outcome of the
submission. -/
theorem missing_gameweek_bootstrap (now : Nat) (db : DB) (u gw : Nat)
    (ids starters : List Nat) (c v : Nat) (chip : Option String)
    (h : ∀ g ∈ db.gameweeks, g.id ≠ gw) :
    (⟨gw, "GW" ++ toString gw, now + sevenDays⟩ : Gameweek) ∈
        (set_squad now db u gw ids).1.gameweeks ∧
    (⟨gw, "GW" ++ toString gw, now + sevenDays⟩ : Gameweek) ∈
        (set_lineup now db u gw starters c v chip).1.gameweeks := by
  have hnone : ¬ (db.gameweeks.any fun g => decide (g.id = gw)) = true := by
    intro hany
    obtain ⟨g, hg, hid⟩ := List.any_eq_true.mp hany
    exact h g hg (of_decide_eq_true hid)
  have hens : (ensure_gameweek now db gw).gameweeks =
      db.gameweeks ++ [⟨gw, "GW" ++ toString gw, now + sevenDays⟩] := by
    unfold ensure_gameweek
    rw [if_neg hnone]
  constructor
  · rw [set_squad_gameweeks, hens]
    exact List.mem_append_right _ (List.mem_singleton_self _)
  · rw [set_lineup_gameweeks, hens]
    exact List.mem_append_right _ (List.mem_singleton_self _)

/-- Witness for the C10 theorem at a state with no gameweek rows. -/
theorem missing_gameweek_bootstrap_witness :
    (∀ g ∈ exDB1.gameweeks, g.id ≠ 7) ∧
      ((⟨7, "GW" ++ toString 7, 0 + sevenDays⟩ : Gameweek) ∈
          (set_squad 0 exDB1 1 7 [1]).1.gameweeks ∧
       (⟨7, "GW" ++ toString 7, 0 + sevenDays⟩ : Gameweek) ∈
          (set_lineup 0 exDB1 1 7 [1] 1 2 none).1.gameweeks) :=
  ⟨by decide, missing_gameweek_bootstrap 0 exDB1 1 7 [1] [1] 1 2 none (by decide)⟩

/-! ## Sync lemmas -/

theorem updRow_newRow (r : FeedRec) (cat : List Player) :
    updRow r (newRow cat r) = newRow cat r := rfl

theorem updRow_updRow (r : FeedRec) (row : Player) :
    updRow r (updRow r row) = updRow r row := rfl

theorem updRow_external_id (r : FeedRec) (row : Player) :
    (updRow r row).external_id = row.external_id := rfl

theorem synced_syncOne_self (cat : List Player) (r : FeedRec) (h : validRec r = true) :
    synced (syncOne cat r) r := by
  unfold syncOne
  rw [if_pos h]
  by_cases hany : (cat.any fun row => decide (row.external_id = r.sid)) = true
  · rw [if_pos hany]
    obtain ⟨row, hrow, hkey⟩ := List.any_eq_true.mp hany
    have hkey' := of_decide_eq_true hkey
    constructor
    · refine ⟨_, List.mem_map_of_mem _ hrow, ?_⟩
      rw [if_pos hkey']
      exact (updRow_external_id r row).trans hkey'
    · intro row' hrow' hkeyr
      obtain ⟨row0, hrow0, heq⟩ := List.mem_map.mp hrow'
      by_cases h0 : row0.external_id = r.sid
      · rw [if_pos h0] at heq
        rw [← heq]
        exact updRow_updRow r row0
      · rw [if_neg h0] at heq
        rw [← heq] at hkeyr
        exact absurd hkeyr h0
  · rw [if_neg hany]
    constructor
    · exact ⟨newRow cat r, List.mem_append_right _ (List.mem_singleton_self _), rfl⟩
    · intro row' hrow' hkeyr
      rcases List.mem_append.mp hrow' with hc | hs
      · exact absurd (List.any_eq_true.mpr ⟨row', hc, decide_eq_true hkeyr⟩) hany
      · rw [List.mem_singleton.mp hs]
        exact updRow_newRow r cat

theorem synced_syncOne_other (cat : List Player) (r r' : FeedRec) (hne : r'.sid ≠ r.sid)
    (hs : synced cat r) : synced (syncOne cat r') r := by
  obtain ⟨⟨row, hrow, hkey⟩, hall⟩ := hs
  unfold syncOne
  by_cases hv : validRec r' = true
  · rw [if_pos hv]
    by_cases hany : (cat.any fun row => decide (row.external_id = r'.sid)) = true
    · rw [if_pos hany]
      constructor
      · refine ⟨_, List.mem_map_of_mem _ hrow, ?_⟩
        have hno : ¬ row.external_id = r'.sid := fun hh => hne (hh.symm.trans hkey)
        rw [if_neg hno]
        exact hkey
      · intro row' hrow' hkeyr
        obtain ⟨row0, hrow0, heq⟩ := List.mem_map.mp hrow'
        by_cases h0 : row0.external_id = r'.sid
        · exfalso
          rw [if_pos h0] at heq
          rw [← heq, updRow_external_id] at hkeyr
          exact hne (h0.symm.trans hkeyr)
        · rw [if_neg h0] at heq
          rw [← heq]
          rw [← heq] at hkeyr
          exact hall row0 hrow0 hkeyr
    · rw [if_neg hany]
      constructor
      · exact ⟨row, List.mem_append_left _ hrow, hkey⟩
      · intro row' hrow' hkeyr
        rcases List.mem_append.mp hrow' with hc | hs2
        · exact hall row' hc hkeyr
        · rw [List.mem_singleton.mp hs2] at hkeyr
          exact absurd hkeyr hne
  · rw [if_neg hv]
    exact ⟨⟨row, hrow, hkey⟩, hall⟩

theorem list_map_id_of {α : Type} (l : List α) (f : α → α) (h : ∀ x ∈ l, f x = x) :
    l.map f = l := by
  induction l with
  | nil => rfl
  | cons a t ih =>
      rw [List.map_cons, h a (List.mem_cons_self a t),
        ih (fun x hx => h x (List.mem_cons_of_mem a hx))]

theorem syncOne_of_synced (cat : List Player) (r : FeedRec) (hs : synced cat r) :
    syncOne cat r = cat := by
  obtain ⟨⟨row, hrow, hkey⟩, hall⟩ := hs
  unfold syncOne
  by_cases hv : validRec r = true
  · rw [if_pos hv, if_pos (List.any_eq_true.mpr ⟨row, hrow, decide_eq_true hkey⟩)]
    apply list_map_id_of
    intro x hx
    by_cases hk : x.external_id = r.sid
    · rw [if_pos hk]
      exact hall x hx hk
    · rw [if_neg hk]
  · rw [if_neg hv]

theorem foldl_syncOne_id (cat : List Player) (feed : List FeedRec)
    (h : ∀ r ∈ feed, syncOne cat r = cat) : feed.foldl syncOne cat = cat := by
  induction feed with
  | nil => rfl
  | cons x xs ih =>
      rw [List.foldl_cons, h x (List.mem_cons_self x xs)]
      exact ih (fun r hr => h r (List.mem_cons_of_mem x hr))

theorem synced_foldl_of_fresh (cat : List Player) (r : FeedRec) (feed : List FeedRec)
    (hne : ∀ r' ∈ feed, r'.sid ≠ r.sid) (hs : synced cat r) :
    synced (feed.foldl syncOne cat) r := by
  induction feed generalizing cat with
  | nil => exact hs
  | cons x xs ih =>
      rw [List.foldl_cons]
      exact ih (syncOne cat x) (fun r' hr' => hne r' (List.mem_cons_of_mem x hr'))
        (synced_syncOne_other cat r x (hne x (List.mem_cons_self x xs)) hs)

theorem synced_after_sync (cat : List Player) (feed : List FeedRec)
    (hnd : (feed.map FeedRec.sid).Nodup) :
    ∀ r ∈ feed, validRec r = true → synced (sync_players cat feed) r := by
  induction feed generalizing cat with
  | nil =>
      intro r hr
      exact absurd hr (List.not_mem_nil r)
  | cons x xs ih =>
      rw [List.map_cons, List.nodup_cons] at hnd
      intro r hr hv
      rcases List.mem_cons.mp hr with rfl | hxs
      · unfold sync_players
        rw [List.foldl_cons]
        apply synced_foldl_of_fresh
        · intro r' hr' hEq
          exact hnd.1 (hEq ▸ List.mem_map_of_mem FeedRec.sid hr')
        · exact synced_syncOne_self cat r hv
      · unfold sync_players
        rw [List.foldl_cons]
        exact ih (syncOne cat x) hnd.2 r hxs hv

theorem price_for_player_eq_spec (pos : Option String) (d y : Option Int) :
    price_for_player pos d y = spec_price pos d y := by
  simp only [price_for_player, spec_price]
  split_ifs <;> omega

/-! ## Claim theorems for the sync and the transfer ledger -/

/-- Claim C7 (transfer ledger modelled from the spec, no such code exists in the
source): the charge for `k` squad changes with `f` banked free transfers is
`4 * max 0 (k - f)` points, an active wildcard makes the charge zero regardless of
`k`, and in particular 3 changes with 1 banked free transfer cost 8 points. -/
theorem transfer_cost_formula :
    (∀ k f : Nat, (transfer_cost k f false : Int) = 4 * max 0 ((k : Int) - (f : Int))) ∧
    (∀ k f : Nat, transfer_cost k f true = 0) ∧
    transfer_cost 3 1 false = 8 := by
  refine ⟨fun k f => ?_, fun k f => rfl, rfl⟩
  simp only [transfer_cost, Bool.false_eq_true, if_false]
  omega

/-- Claim C8: every row the sync stores for a processed feed record — freshly
inserted or updated in place by external-id match — carries exactly the price of the
spec's deterministic pricing formula, and a feed position of `DEF` is stored as
`DST` (other positions are stored unchanged). -/
theorem sync_stores_spec_price_and_pos (r : FeedRec) (cat : List Player)
    (h : validRec r = true) :
    ∀ row ∈ syncOne cat r, row.external_id = r.sid →
      row.price_m = spec_price r.feedPos r.depth_chart_order r.years_exp ∧
      row.pos = (if r.feedPos = some "DEF" then "DST" else r.feedPos.getD "") := by
  intro row hrow hkey
  have hupd : updRow r row = row := (synced_syncOne_self cat r h).2 row hrow hkey
  constructor
  · rw [← hupd]
    exact price_for_player_eq_spec r.feedPos r.depth_chart_order r.years_exp
  · rw [← hupd]
    show recPos r = _
    unfold recPos posApp
    cases hp : r.feedPos with
    | none => rfl
    | some s =>
        simp only [Option.getD_some]
        by_cases hs : s = "DEF"
        · subst hs
          rfl
        · rw [if_neg hs, if_neg (by simp [hs])]

/-- Witness for the C8 theorem: syncing the concrete record into an empty catalog
stores price 7.7 (5.0 base for a defense, +2.0 projected starter, +0.7 veteran) and
position `DST`. -/
theorem sync_stores_spec_price_and_pos_witness :
    validRec exRec = true ∧ newRow [] exRec ∈ syncOne [] exRec ∧
      (newRow [] exRec).external_id = exRec.sid ∧
      ((newRow [] exRec).price_m =
          spec_price exRec.feedPos exRec.depth_chart_order exRec.years_exp ∧
        (newRow [] exRec).pos =
          (if exRec.feedPos = some "DEF" then "DST" else exRec.feedPos.getD "")) := by
  have hsync : syncOne [] exRec = [newRow [] exRec] := rfl
  have hmem : newRow [] exRec ∈ syncOne [] exRec := by
    rw [hsync]
    exact List.mem_singleton_self _
  exact ⟨rfl, hmem, rfl,
    sync_stores_spec_price_and_pos exRec [] rfl (newRow [] exRec) hmem rfl⟩

/-- Claim C9: the roster sync is idempotent — as the feed is a JSON object its keys
are pairwise distinct, and under that hypothesis running the sync twice with the same
payload leaves the player table exactly as one run does: the second run finds every
record's row by external id and updates it to the values it already has. -/
theorem sync_players_idempotent (cat : List Player) (feed : List FeedRec)
    (hnd : (feed.map FeedRec.sid).Nodup) :
    sync_players (sync_players cat feed) feed = sync_players cat feed := by
  unfold sync_players
  apply foldl_syncOne_id
  intro r hr
  by_cases hv : validRec r = true
  · exact syncOne_of_synced _ r (synced_after_sync cat feed hnd r hr hv)
  · unfold syncOne
    rw [if_neg hv]

/-- Witness for the C9 theorem on a concrete one-record feed. -/
theorem sync_players_idempotent_witness :
    ([exRec].map FeedRec.sid).Nodup ∧
      sync_players (sync_players [] [exRec]) [exRec] = sync_players [] [exRec] :=
  ⟨by decide, sync_players_idempotent [] [exRec] (by decide)⟩

end GridCap
